import Mathlib

/-!
# Back-Git-Up: a verification development

A shallow embedding of `src/main.py` (the Back-Git-Up backup script) and
proofs about it.  The script enumerates the repositories a GitHub user can
access through the paginated `/user/repos` API, then for each repository
either clones it (when the target path does not exist) or runs `git pull`
inside it (when it does), and finally, when run as a program, repeats the
whole pass every 24 hours.

External effects (HTTP requests, spawned `git` processes, the filesystem)
are modelled by explicit oracles and state:

* the HTTP API is an oracle `fetch : Nat → FetchResult` giving the body of
  the page-`n` request (the script fixes `per_page = 100`, so a faithful
  server is `pageServer`);
* a spawned process is an `Invocation` (its argv and the `timeout=` value
  handed to `subprocess.run`), answered by an oracle
  `git : Invocation → ProcResult`;
* the filesystem is `FS`, recording which paths exist and which of the
  existing paths hold valid git working copies; the script itself only
  ever mutates it through `mkdir(parents=True, exist_ok=True)` and
  `mkdir(exist_ok=True)`, which are modelled; the effects that happen
  inside the spawned `git` processes are external to the script and are
  not modelled;
* `time.sleep` calls and page requests are recorded as trace events.

Paths are lists of components (the POSIX view taken by `pathlib`): joining
`base_dir / repo_name` splits the relative string `repo_name` on `'/'`,
`.parent` drops the last component, and `str()` re-joins with `"/"`.
-/

namespace BackGitUp

/-- One element of the JSON array returned by `GET /user/repos`, restricted
to the two fields the script reads (`repo_data["full_name"]`,
`repo_data["clone_url"]`). -/
structure RepoData where
  full_name : String
  clone_url : String
deriving Repr, DecidableEq

/-- A filesystem path, as its list of components (the `pathlib` view). -/
abbrev Path := List String

/-- The components of a relative path string: split on `'/'` (what
`pathlib` does when a multi-component string such as `"owner/name"` is
joined onto a base path). -/
def pathComponents (s : String) : Path :=
  (s.data.splitOn '/').map String.mk

/-- Rendering of a path back to a string (`str(path)` for a relative
POSIX path): components joined with `"/"`. -/
def pathToString (p : Path) : String :=
  String.intercalate "/" p

/-- `repo_path = base_dir / repo_name` (main.py line 73): `pathlib` splits
the relative part on `'/'` and appends the components. -/
def repo_path (base_dir : Path) (full_name : String) : Path :=
  base_dir ++ pathComponents full_name

/-- The filesystem state visible to the script: which paths exist
(`Path.exists()`), and which of the existing paths are valid git working
copies.  The second field is part of the world state; whether the script
ever consults it is a fact to be proved, not assumed. -/
structure FS where
  present : Path → Bool
  isGitRepo : Path → Bool

/-- `p.mkdir(parents=True, exist_ok=True)` (main.py line 114): afterwards
`p` and every ancestor of `p` exist; nothing is removed. -/
def FS.mkdirParents (fs : FS) (p : Path) : FS :=
  { fs with present := fun q => fs.present q || q.isPrefixOf p }

/-- `p.mkdir(exist_ok=True)` (main.py line 180): afterwards `p` exists;
nothing is removed. -/
def FS.mkdir (fs : FS) (p : Path) : FS :=
  { fs with present := fun q => fs.present q || q == p }

/-- One `subprocess.run` call: the argv vector and the `timeout=` value
passed with it. -/
structure Invocation where
  argv : List String
  timeout : Nat
deriving Repr, DecidableEq

/-- The outcome of one `subprocess.run` call: normal completion with an
exit code and captured output, a `subprocess.TimeoutExpired`, or some
other raised exception. -/
inductive ProcResult where
  | completed (returncode : Int) (stdout : String) (stderr : String)
  | timedOut
  | raised (msg : String)
deriving Repr, DecidableEq

/-- Structural model of Python's `str.replace(old, new)` for the fuel
`fuel ≥ len(s)`: scan left to right, replacing each (non-overlapping)
occurrence of `old`.  Written with fuel so that it is structural and the
kernel can evaluate it.  (For empty `old` it copies the string; the script
only ever replaces the non-empty literal `"https://"`.) -/
def replaceFuel (old new : List Char) : Nat → List Char → List Char
  | 0, l => l
  | _ + 1, [] => []
  | fuel + 1, c :: rest =>
    match old, (c :: rest).dropPrefix? old with
    | _ :: _, some suffix => new ++ replaceFuel old new fuel suffix
    | _, _ => c :: replaceFuel old new fuel rest

/-- Python's `s.replace(old, new)`. -/
def pyReplace (s old new : String) : String :=
  String.mk (replaceFuel old.data new.data s.data.length s.data)

/-- Python's `s.strip()`: whitespace removed from both ends. -/
def pyStrip (s : String) : String :=
  String.mk (((s.data.dropWhile Char.isWhitespace).reverse.dropWhile
    Char.isWhitespace).reverse)

/-- main.py line 70:
`authenticated_url = clone_url.replace("https://", f"https://{token}@")`. -/
def authenticated_url (clone_url token : String) : String :=
  pyReplace clone_url "https://" ("https://" ++ token ++ "@")

/-- The `git pull` invocation of main.py lines 89–94:
`subprocess.run(["git", "-C", str(repo_path), "pull"], ..., timeout=300)`. -/
def pull_invocation (p : Path) : Invocation :=
  ⟨["git", "-C", pathToString p, "pull"], 300⟩

/-- The `git clone` invocation of main.py lines 116–121:
`subprocess.run(["git", "clone", authenticated_url, str(repo_path)], ...,
timeout=300)`. -/
def clone_invocation (url : String) (p : Path) : Invocation :=
  ⟨["git", "clone", url, pathToString p], 300⟩

/-- What one `clone_or_update_repo` call produces: the returned boolean,
the filesystem afterwards, the processes it spawned, and the non-verbose
messages it wrote (`tqdm.write` outside `if verbose:`). -/
structure SyncResult where
  success : Bool
  fs : FS
  invs : List Invocation
  msgs : List String

/-- One `subprocess.run` of a git command together with the result
handling that `clone_or_update_repo` applies identically in both of its
branches (main.py lines 89–104 and 116–131, plus the shared `except`
clauses of lines 135–144): return `True` exactly when the process exits
with code 0; on a non-zero exit write `"Failed to <verb> <name>:
<stderr.strip()>"` and return `False`; on `TimeoutExpired` write
`"Timeout for <name>"` and return `False`; on any other exception write
`"Error with <name>: <e>"` and return `False`.  The filesystem `fsOut`
(already containing whatever directories were created before the spawn)
is returned unchanged on every arm: the script performs no rollback. -/
def run_git (repo_name verb : String) (inv : Invocation) (fsOut : FS)
    (git : Invocation → ProcResult) : SyncResult :=
  match git inv with
  | .completed rc _ stderr =>
    if rc ≠ 0 then
      ⟨false, fsOut, [inv],
        ["Failed to " ++ verb ++ " " ++ repo_name ++ ": " ++ pyStrip stderr]⟩
    else ⟨true, fsOut, [inv], []⟩
  | .timedOut => ⟨false, fsOut, [inv], ["Timeout for " ++ repo_name]⟩
  | .raised e => ⟨false, fsOut, [inv], ["Error with " ++ repo_name ++ ": " ++ e]⟩

/-- main.py lines 61–144, `clone_or_update_repo(repo_data, base_dir,
token)`: derive `repo_path = base_dir / full_name`; if it exists, run
`git -C repo_path pull`; otherwise create the parent directory
(`repo_path.parent.mkdir(parents=True, exist_ok=True)`, line 114) and run
`git clone authenticated_url repo_path`. -/
def clone_or_update_repo (repo_data : RepoData) (base_dir : Path)
    (token : String) (git : Invocation → ProcResult) (fs : FS) : SyncResult :=
  let repo_name := repo_data.full_name
  let authUrl := authenticated_url repo_data.clone_url token
  let path := repo_path base_dir repo_name
  if fs.present path then
    run_git repo_name "update" (pull_invocation path) fs git
  else
    run_git repo_name "clone" (clone_invocation authUrl path)
      (fs.mkdirParents path.dropLast) git

/-- The body of one page request in `get_github_repos`: either a 200
response whose JSON body is a list of repositories, or a non-200 response
with its status and text. -/
inductive FetchResult where
  | ok (repos : List RepoData)
  | httpError (status : Nat) (body : String)

/-- Observable events of the enumeration loop: a page request, and the
`time.sleep(0.5)` between consecutive requests (main.py line 56). -/
inductive FetchEvent where
  | request (page : Nat)
  | sleepHalfSec
deriving Repr, DecidableEq

/-- How `get_github_repos` ends: the accumulated repository list on an
empty page (`break`), a raised exception on a non-200 response, or fuel
exhaustion (a model artifact: the Python loop is unbounded). -/
inductive EnumOutcome where
  | done (repos : List RepoData)
  | fatal (status : Nat) (body : String)
  | outOfFuel
deriving Repr, DecidableEq

/-- main.py lines 27–56, the body of `while True:` in `get_github_repos`:
request page `page`; raise on a non-200 status; `break` with the
accumulated list if the page is empty; otherwise extend the list,
increment the page, sleep 0.5 s, and loop. -/
def get_github_repos_loop (fetch : Nat → FetchResult) :
    Nat → Nat → List RepoData → EnumOutcome × List FetchEvent
  | 0, _, _ => (.outOfFuel, [])
  | fuel + 1, page, repos =>
    match fetch page with
    | .httpError s b => (.fatal s b, [.request page])
    | .ok page_repos =>
      if page_repos.isEmpty then (.done repos, [.request page])
      else
        let r := get_github_repos_loop fetch fuel (page + 1) (repos ++ page_repos)
        (r.1, .request page :: .sleepHalfSec :: r.2)

/-- main.py lines 11–58, `get_github_repos(token)`: run the pagination
loop starting from `page = 1` with an empty accumulator. -/
def get_github_repos (fetch : Nat → FetchResult) (fuel : Nat) :
    EnumOutcome × List FetchEvent :=
  get_github_repos_loop fetch fuel 1 []

/-- A well-behaved server holding the repository list `all` and honoring
the script's fixed `per_page=100`: page `n` (1-indexed) is the `n`-th
100-element slice of `all`. -/
def pageServer (all : List RepoData) (page : Nat) : FetchResult :=
  .ok ((all.drop ((page - 1) * 100)).take 100)

/-- main.py lines 203–217, the `for repo in repos:` loop of `main`: run
`clone_or_update_repo` on each repository in order, threading the
filesystem, and collect the boolean outcome of every repository together
with all spawned invocations.  `success_count` and `fail_count` are the
counts of `true` and `false` in the outcome list. -/
def process_repos (git : Invocation → ProcResult) (base_dir : Path)
    (token : String) : List RepoData → FS → List Bool × FS × List Invocation
  | [], fs => ([], fs, [])
  | repo :: rest, fs =>
    let r := clone_or_update_repo repo base_dir token git fs
    let next := process_repos git base_dir token rest r.fs
    (r.success :: next.1, next.2.1, r.invs ++ next.2.2)

/-- The ambient world of one pass: `os.getenv("GITHUB_TOKEN")`, the HTTP
oracle, and the process oracle. -/
structure PassEnv where
  token : Option String
  fetch : Nat → FetchResult
  git : Invocation → ProcResult

/-- What one `main()` call produces: its return value (the pass exit
code), the filesystem afterwards, and the processes spawned. -/
structure PassResult where
  exitCode : Nat
  fs : FS
  invs : List Invocation

/-- main.py lines 147–234, `main()`: return 1 when `GITHUB_TOKEN` is
missing; otherwise create `base_dir`, enumerate (a raised enumeration
exception reaches the `except` and returns 1 before any repository is
processed), process every repository, and return 0 exactly when
`fail_count == 0`.  Fuel exhaustion of the model's enumeration loop is
mapped to the exceptional return 1. -/
def main_run (env : PassEnv) (base_dir : Path) (fuel : Nat) (fs0 : FS) :
    PassResult :=
  match env.token with
  | none => ⟨1, fs0, []⟩
  | some token =>
    let fs := fs0.mkdir base_dir
    match (get_github_repos env.fetch fuel).1 with
    | .done repos =>
      let r := process_repos env.git base_dir token repos fs
      ⟨if r.1.count false = 0 then 0 else 1, r.2.1, r.2.2⟩
    | .fatal _ _ => ⟨1, fs, []⟩
    | .outOfFuel => ⟨1, fs, []⟩

/-- Observable events of the top-level driver: one pass running to
completion with its exit code, and the inter-pass sleep. -/
inductive DriverEvent where
  | passRun (exitCode : Nat)
  | sleepSecs (secs : Nat)
deriving Repr, DecidableEq

/-- main.py lines 237–242, the `while True:` under `if __name__ ==
"__main__":` — `main()` then `time.sleep(24 * 60 * 60)`, forever.  The
model observes the first `envs.length` iterations (each pass sees its own
world state, the filesystem is threaded through): each iteration runs
`main` and then sleeps 86400 s, whatever the pass returned. -/
def driver_loop (base_dir : Path) (fuel : Nat) :
    List PassEnv → FS → List DriverEvent × FS
  | [], fs => ([], fs)
  | env :: rest, fs =>
    let r := main_run env base_dir fuel fs
    let next := driver_loop base_dir fuel rest r.fs
    (.passRun r.exitCode :: .sleepSecs (24 * 60 * 60) :: next.1, next.2)

/-- Whether `needle` occurs as a contiguous substring of `hay`. -/
def containsSub (needle : List Char) : List Char → Bool
  | [] => needle.isEmpty
  | c :: rest => needle.isPrefixOf (c :: rest) || containsSub needle rest

/-- Spec-side notion (from the spec's error taxonomy): a report mentions a
named error kind when some emitted message contains it as a substring. -/
def mentionsKind (kind : String) (msgs : List String) : Bool :=
  msgs.any fun m => containsSub kind.data m.data

/-- Whether a trace event is a page request. -/
def isRequest : FetchEvent → Bool
  | .request _ => true
  | .sleepHalfSec => false

/-- Spec-side notion: no two page requests are adjacent in the trace —
between any two successive page fetches some other event (here, the
0.5 s sleep) intervenes. -/
def sleepSeparated (tr : List FetchEvent) : Prop :=
  tr.Chain' fun a b => isRequest a = false ∨ isRequest b = false

/-- Whether a driver event is a completed pass. -/
def isPassRun : DriverEvent → Bool
  | .passRun _ => true
  | .sleepSecs _ => false

/-! ## Concrete fixtures used by witnesses and counterexamples -/

/-- A repository descriptor as the GitHub API returns it. -/
def repoAlice : RepoData :=
  ⟨"alice/foo", "https://github.com/alice/foo.git"⟩

/-- The default base directory `Path("repos")`. -/
def baseRepos : Path := pathComponents "repos"

/-- An empty base tree: no path exists. -/
def fsEmpty : FS := ⟨fun _ => false, fun _ => false⟩

/-- A tree where `repos/alice/foo` exists but is not a valid git working
copy (the spec's "path collision" scenario). -/
def fsCollision : FS :=
  ⟨fun p => p == pathComponents "repos/alice/foo", fun _ => false⟩

/-- A tree where `repos/alice/foo` exists and is a valid git working
copy. -/
def fsAtAlice : FS :=
  ⟨fun p => p == pathComponents "repos/alice/foo",
   fun p => p == pathComponents "repos/alice/foo"⟩

/-- A git oracle where every process succeeds. -/
def gitOK : Invocation → ProcResult := fun _ => .completed 0 "" ""

/-- A git oracle where every process exits 1 with an error on stderr. -/
def gitFail : Invocation → ProcResult :=
  fun _ => .completed 1 "" "fatal: some git error"

/-- A git oracle where every process hits the 300 s timeout
(`subprocess.TimeoutExpired`). -/
def gitTimeout : Invocation → ProcResult := fun _ => .timedOut

/-- A git oracle behaving like `git pull` inside a working copy whose
local history has diverged from the remote (non-fast-forward): non-zero
exit, divergence complaint on stderr. -/
def gitDiverged : Invocation → ProcResult :=
  fun _ => .completed 128 "" "fatal: Not possible to fast-forward, aborting."

/-- A git oracle behaving like `git pull` with an unreachable remote:
non-zero exit for a reason unrelated to divergence. -/
def gitUnreachable : Invocation → ProcResult :=
  fun _ => .completed 128 "" "fatal: unable to access remote"

/-- A server with 237 repositories: with the script's `per_page=100`, the
pages have sizes 100, 100, 37, and page 4 is empty. -/
def repos237 : List RepoData := List.replicate 237 repoAlice

/-- An API that answers every request with HTTP 403 (rate limited). -/
def fetchRateLimited : Nat → FetchResult :=
  fun _ => .httpError 403 "rate limit exceeded"

/-- A pass whose every page request is answered HTTP 403. -/
def envRateLimited : PassEnv := ⟨some "TOKEN", fetchRateLimited, gitOK⟩

/-! ## Helper lemmas -/

theorem data_mk (l : List Char) : (String.mk l).data = l := rfl

theorem pathComponents_injective : Function.Injective pathComponents := by
  intro a b h
  have hcomp : (String.data ∘ String.mk) = fun l : List Char => l := rfl
  have h1 : a.data.splitOn '/' = b.data.splitOn '/' := by
    have h0 := congrArg (List.map String.data) h
    simpa [pathComponents, List.map_map, hcomp] using h0
  have h2 : a.data = b.data := by
    have h0 := congrArg (fun ls => [('/' : Char)].intercalate ls) h1
    simpa [List.intercalate_splitOn] using h0
  exact congrArg String.mk h2

theorem repo_path_inj (base : Path) {a b : String}
    (h : repo_path base a = repo_path base b) : a = b :=
  pathComponents_injective (List.append_cancel_left h)

theorem pathComponents_owner_name (owner name : String)
    (ho : '/' ∉ owner.data) (hn : '/' ∉ name.data) :
    pathComponents (owner ++ "/" ++ name) = [owner, name] := by
  have hd : (owner ++ "/" ++ name).data = owner.data ++ '/' :: name.data := by
    simp [String.data_append]
  have hint : [('/' : Char)].intercalate [owner.data, name.data]
      = owner.data ++ '/' :: name.data := by
    simp [List.intercalate]
  have hsplit : (owner.data ++ '/' :: name.data).splitOn '/'
      = [owner.data, name.data] := by
    rw [← hint]
    refine List.splitOn_intercalate [owner.data, name.data] '/' ?_ (by simp)
    intro l hl
    simp only [List.mem_cons, List.not_mem_nil, or_false] at hl
    rcases hl with rfl | rfl
    · exact ho
    · exact hn
  show pathComponents (owner ++ "/" ++ name) = [owner, name]
  rw [pathComponents, hd, hsplit]
  rfl

theorem process_repos_length (git : Invocation → ProcResult) (base_dir : Path)
    (token : String) (repos : List RepoData) (fs : FS) :
    (process_repos git base_dir token repos fs).1.length = repos.length := by
  induction repos generalizing fs with
  | nil => rfl
  | cons r rest ih => simp [process_repos, ih]

theorem run_git_invs (repo_name verb : String) (inv : Invocation) (fsOut : FS)
    (git : Invocation → ProcResult) :
    (run_git repo_name verb inv fsOut git).invs = [inv] := by
  unfold run_git
  split <;> first | rfl | (split <;> rfl)

theorem run_git_fs (repo_name verb : String) (inv : Invocation) (fsOut : FS)
    (git : Invocation → ProcResult) :
    (run_git repo_name verb inv fsOut git).fs = fsOut := by
  unfold run_git
  split <;> first | rfl | (split <;> rfl)

theorem clone_or_update_repo_invs (repo : RepoData) (base : Path)
    (token : String) (git : Invocation → ProcResult) (fs : FS) :
    (clone_or_update_repo repo base token git fs).invs
      = if fs.present (repo_path base repo.full_name)
        then [pull_invocation (repo_path base repo.full_name)]
        else [clone_invocation (authenticated_url repo.clone_url token)
              (repo_path base repo.full_name)] := by
  unfold clone_or_update_repo
  by_cases h : fs.present (repo_path base repo.full_name) <;>
    simp [h, run_git_invs]

theorem clone_or_update_repo_fs (repo : RepoData) (base : Path)
    (token : String) (git : Invocation → ProcResult) (fs : FS) :
    (clone_or_update_repo repo base token git fs).fs
      = if fs.present (repo_path base repo.full_name)
        then fs
        else fs.mkdirParents (repo_path base repo.full_name).dropLast := by
  unfold clone_or_update_repo
  by_cases h : fs.present (repo_path base repo.full_name) <;>
    simp [h, run_git_fs]

@[simp] theorem isPassRun_passRun (n : Nat) : isPassRun (.passRun n) = true := rfl

@[simp] theorem isPassRun_sleepSecs (n : Nat) : isPassRun (.sleepSecs n) = false := rfl

/-! ## C3 -/

/-- C3: the derived target path is exactly `baseDir/owner/name` (for a
full name `owner/name` whose components hold no slash); under a fixed
base the derivation is a pure, stable function of the full name — two
descriptors get the same target path exactly when their full names are
equal; the pass loop produces exactly one outcome per descriptor; and
pairwise-distinct full names give pairwise-distinct target paths. -/
theorem c3_path_derivation_and_plan :
    (∀ (base : Path) (owner name : String),
      '/' ∉ owner.data → '/' ∉ name.data →
      repo_path base (owner ++ "/" ++ name) = base ++ [owner, name]) ∧
    (∀ (base : Path) (fn₁ fn₂ : String),
      repo_path base fn₁ = repo_path base fn₂ ↔ fn₁ = fn₂) ∧
    (∀ (git : Invocation → ProcResult) (base : Path) (token : String)
      (repos : List RepoData) (fs : FS),
      (process_repos git base token repos fs).1.length = repos.length) ∧
    (∀ (base : Path) (repos : List RepoData),
      (repos.map RepoData.full_name).Pairwise (· ≠ ·) →
      (repos.map fun r => repo_path base r.full_name).Pairwise (· ≠ ·)) := by
  refine ⟨?_, ?_, process_repos_length, ?_⟩
  · intro base owner name ho hn
    rw [repo_path, pathComponents_owner_name owner name ho hn]
  · intro base fn₁ fn₂
    exact ⟨repo_path_inj base, fun h => by rw [h]⟩
  · intro base repos h
    rw [List.pairwise_map] at h ⊢
    exact h.imp fun hne hEq => hne (repo_path_inj base hEq)

/-- Witness for C3 at concrete inputs. -/
theorem c3_witness :
    repo_path baseRepos ("alice" ++ "/" ++ "foo") = baseRepos ++ ["alice", "foo"] ∧
    ([repoAlice, ⟨"bob/bar", "https://github.com/bob/bar.git"⟩].map
      fun r => repo_path baseRepos r.full_name).Pairwise (· ≠ ·) :=
  ⟨c3_path_derivation_and_plan.1 baseRepos "alice" "foo" (by decide) (by decide),
   c3_path_derivation_and_plan.2.2.2 baseRepos
     [repoAlice, ⟨"bob/bar", "https://github.com/bob/bar.git"⟩] (by decide)⟩

/-! ## C10 -/

/-- C10: when the target path does not exist, the parent directory
`baseDir/owner` is created (with its ancestors) immediately before the
clone, and no arm of the result handling removes it: whatever the spawned
process does — non-zero exit, timeout, exception, or success — the
resulting filesystem is exactly the input filesystem with the parent
directory created, so in particular a failed clone leaves the newly
created (possibly empty) owner directory on disk. -/
theorem c10_failed_clone_keeps_parent_dir
    (repo : RepoData) (base : Path) (token : String)
    (git : Invocation → ProcResult) (fs : FS)
    (h : fs.present (repo_path base repo.full_name) = false) :
    (clone_or_update_repo repo base token git fs).fs
      = fs.mkdirParents (repo_path base repo.full_name).dropLast ∧
    (clone_or_update_repo repo base token git fs).fs.present
      ((repo_path base repo.full_name).dropLast) = true := by
  have hfs := clone_or_update_repo_fs repo base token git fs
  rw [h] at hfs
  simp only [if_false, Bool.false_eq_true] at hfs
  refine ⟨hfs, ?_⟩
  rw [hfs]
  have hpre : ((repo_path base repo.full_name).dropLast).isPrefixOf
      (repo_path base repo.full_name) = true := by
    rw [List.isPrefixOf_iff_prefix]
    exact List.dropLast_prefix _
  simp [FS.mkdirParents, hpre]

/-- Witness for C10: a clone that fails (exit 1) into an empty tree still
leaves `repos/alice` created. -/
theorem c10_witness :
    (clone_or_update_repo repoAlice baseRepos "TOKEN" gitFail fsEmpty).fs
      = fsEmpty.mkdirParents (repo_path baseRepos repoAlice.full_name).dropLast ∧
    (clone_or_update_repo repoAlice baseRepos "TOKEN" gitFail fsEmpty).fs.present
      ((repo_path baseRepos repoAlice.full_name).dropLast) = true :=
  c10_failed_clone_keeps_parent_dir repoAlice baseRepos "TOKEN" gitFail fsEmpty
    (by decide)

/-! ## C6 -/

/-- C6: every spawned git process is handed `timeout=300` (seconds); a
process that exceeds the bound (`subprocess.TimeoutExpired`) makes the
action a failed outcome reported through the dedicated timeout branch
(`"Timeout for <name>"`); and failed actions do not stop the pass — the
loop yields exactly one outcome per repository whatever the oracle does. -/
theorem c6_timeout_bound :
    (∀ (repo : RepoData) (base : Path) (token : String)
      (git : Invocation → ProcResult) (fs : FS),
      ∀ inv ∈ (clone_or_update_repo repo base token git fs).invs,
        inv.timeout = 300) ∧
    (∀ (repo : RepoData) (base : Path) (token : String)
      (git : Invocation → ProcResult) (fs : FS),
      (∀ inv, git inv = .timedOut) →
      (clone_or_update_repo repo base token git fs).success = false ∧
      (clone_or_update_repo repo base token git fs).msgs
        = ["Timeout for " ++ repo.full_name]) ∧
    (∀ (git : Invocation → ProcResult) (base : Path) (token : String)
      (repos : List RepoData) (fs : FS),
      (process_repos git base token repos fs).1.length = repos.length) := by
  refine ⟨?_, ?_, process_repos_length⟩
  · intro repo base token git fs inv hinv
    rw [clone_or_update_repo_invs] at hinv
    by_cases h : fs.present (repo_path base repo.full_name) <;>
      simp [h] at hinv <;> rw [hinv] <;> rfl
  · intro repo base token git fs htime
    unfold clone_or_update_repo run_git
    by_cases h : fs.present (repo_path base repo.full_name) <;>
      simp [h, htime _]

/-- Witness for C6: with an oracle that times every process out, the
concrete action fails with the timeout report, and its (clone) invocation
carried `timeout=300`. -/
theorem c6_witness :
    (clone_invocation (authenticated_url repoAlice.clone_url "TOKEN")
      (repo_path baseRepos repoAlice.full_name)).timeout = 300 ∧
    (clone_or_update_repo repoAlice baseRepos "TOKEN" gitTimeout fsEmpty).success
      = false ∧
    (clone_or_update_repo repoAlice baseRepos "TOKEN" gitTimeout fsEmpty).msgs
      = ["Timeout for " ++ repoAlice.full_name] :=
  ⟨c6_timeout_bound.1 repoAlice baseRepos "TOKEN" gitTimeout fsEmpty _ (by decide),
   (c6_timeout_bound.2.1 repoAlice baseRepos "TOKEN" gitTimeout fsEmpty
     fun _ => rfl).1,
   (c6_timeout_bound.2.1 repoAlice baseRepos "TOKEN" gitTimeout fsEmpty
     fun _ => rfl).2⟩

/-! ## C7 -/

/-- C7: the pass exit code (the value `main` returns for the pass) is 0
exactly when the pass ran to completion with zero failed actions — a
token was present, enumeration succeeded, and no outcome of the loop was
a failure — and it is 1 in every other case: any action failure, a fatal
(pass-level) error, or the model's fuel artifact. -/
theorem c7_exit_code (env : PassEnv) (base : Path) (fuel : Nat) (fs0 : FS) :
    ((main_run env base fuel fs0).exitCode = 0 ↔
      ∃ (token : String) (repos : List RepoData),
        env.token = some token ∧
        (get_github_repos env.fetch fuel).1 = .done repos ∧
        (process_repos env.git base token repos (fs0.mkdir base)).1.count false
          = 0) ∧
    ((main_run env base fuel fs0).exitCode = 0 ∨
      (main_run env base fuel fs0).exitCode = 1) := by
  unfold main_run
  cases htok : env.token with
  | none => simp
  | some token =>
    cases hout : (get_github_repos env.fetch fuel).1 with
    | done repos =>
      by_cases hc :
        (process_repos env.git base token repos (fs0.mkdir base)).1.count false = 0 <;>
        simp [hout, hc]
    | fatal s b => simp [hout]
    | outOfFuel => simp [hout]

/-! ## C8 -/

/-- C8: a fatal enumeration error makes the pass return 1 without
spawning a single git process (the pass aborts before any clone/update
action); and the long-lived driver never stops because of a pass: its
trace is always the pass event followed by the 24-hour sleep followed by
the remaining iterations, and every scheduled pass contributes exactly
one completed-pass event, whatever each pass returned. -/
theorem c8_fatal_abort_driver_continues :
    (∀ (env : PassEnv) (base : Path) (fuel : Nat) (fs0 : FS) (s : Nat) (b : String),
      (get_github_repos env.fetch fuel).1 = .fatal s b →
      (main_run env base fuel fs0).invs = [] ∧
      (main_run env base fuel fs0).exitCode = 1) ∧
    (∀ (base : Path) (fuel : Nat) (env : PassEnv) (rest : List PassEnv) (fs0 : FS),
      (driver_loop base fuel (env :: rest) fs0).1
        = .passRun (main_run env base fuel fs0).exitCode
          :: .sleepSecs (24 * 60 * 60)
          :: (driver_loop base fuel rest (main_run env base fuel fs0).fs).1) ∧
    (∀ (base : Path) (fuel : Nat) (envs : List PassEnv) (fs0 : FS),
      ((driver_loop base fuel envs fs0).1.countP fun e => isPassRun e)
        = envs.length) := by
  refine ⟨?_, ?_, ?_⟩
  · intro env base fuel fs0 s b hfatal
    unfold main_run
    cases htok : env.token with
    | none => exact ⟨rfl, rfl⟩
    | some token => simp [hfatal]
  · intro base fuel env rest fs0
    rfl
  · intro base fuel envs fs0
    induction envs generalizing fs0 with
    | nil => rfl
    | cons e rest ih => simp [driver_loop, List.countP_cons, ih]

/-- Witness for C8: the rate-limited pass aborts with no process spawned
and exit code 1. -/
theorem c8_witness :
    (main_run envRateLimited baseRepos 10 fsEmpty).invs = [] ∧
    (main_run envRateLimited baseRepos 10 fsEmpty).exitCode = 1 :=
  c8_fatal_abort_driver_continues.1 envRateLimited baseRepos 10 fsEmpty 403
    "rate limit exceeded" (by decide)

theorem run_git_fsOut_indep (repo_name verb : String) (inv : Invocation)
    (git : Invocation → ProcResult) (fs1 fs2 : FS) :
    (run_git repo_name verb inv fs1 git).success
      = (run_git repo_name verb inv fs2 git).success ∧
    (run_git repo_name verb inv fs1 git).invs
      = (run_git repo_name verb inv fs2 git).invs ∧
    (run_git repo_name verb inv fs1 git).msgs
      = (run_git repo_name verb inv fs2 git).msgs := by
  unfold run_git
  split <;> first
    | exact ⟨rfl, rfl, rfl⟩
    | (split <;> exact ⟨rfl, rfl, rfl⟩)

/-! ## C1 -/

/-- C1 is false on the code at this input: `repos/alice/foo` exists but
is not a valid repository working copy (`fsCollision`), so the claim
requires a Skip (path collision) leaving the directory untouched — in
particular, no git process run inside it.  The code instead spawns
`git -C repos/alice/foo pull`: the existing non-repo directory is pulled
into, and no skip/path-collision case exists. -/
theorem c1_counterexample :
    fsCollision.present (repo_path baseRepos repoAlice.full_name) = true ∧
    fsCollision.isGitRepo (repo_path baseRepos repoAlice.full_name) = false ∧
    (clone_or_update_repo repoAlice baseRepos "TOKEN" gitFail fsCollision).invs
      = [⟨["git", "-C", "repos/alice/foo", "pull"], 300⟩] ∧
    (clone_or_update_repo repoAlice baseRepos "TOKEN" gitFail fsCollision).invs
      ≠ [] := by decide

/-- C1 amended: if the target path does not exist, a clone is performed;
if it exists, a pull is performed — regardless of whether the existing
path is a valid repository working copy.  The behaviour depends on the
filesystem only through path existence (any two states agreeing on
`present` get identical processes and outcome), there is no skip or
path-collision case, and the pull branch itself leaves the filesystem
unchanged (any overwriting would be git's doing, not the script's). -/
theorem c1_amended (repo : RepoData) (base : Path) (token : String)
    (git : Invocation → ProcResult) (fs : FS) :
    (fs.present (repo_path base repo.full_name) = false →
      (clone_or_update_repo repo base token git fs).invs
        = [clone_invocation (authenticated_url repo.clone_url token)
           (repo_path base repo.full_name)]) ∧
    (fs.present (repo_path base repo.full_name) = true →
      (clone_or_update_repo repo base token git fs).invs
        = [pull_invocation (repo_path base repo.full_name)] ∧
      (clone_or_update_repo repo base token git fs).fs = fs) ∧
    (∀ fs' : FS, fs'.present = fs.present →
      (clone_or_update_repo repo base token git fs').invs
        = (clone_or_update_repo repo base token git fs).invs ∧
      (clone_or_update_repo repo base token git fs').success
        = (clone_or_update_repo repo base token git fs).success) := by
  refine ⟨?_, ?_, ?_⟩
  · intro hp
    rw [clone_or_update_repo_invs, hp]
    rfl
  · intro hp
    rw [clone_or_update_repo_invs, clone_or_update_repo_fs, hp]
    exact ⟨rfl, rfl⟩
  · intro fs' hp
    constructor
    · rw [clone_or_update_repo_invs, clone_or_update_repo_invs, hp]
    · unfold clone_or_update_repo
      rw [hp]
      by_cases h : fs.present (repo_path base repo.full_name) = true
      · simp only [h, if_true]
        exact (run_git_fsOut_indep _ _ _ git fs' fs).1
      · simp only [h, if_false, Bool.not_eq_true] at *
        simp only [h, Bool.false_eq_true, if_false]
        exact (run_git_fsOut_indep _ _ _ git _ _).1

/-- Witness for the amended C1: on the collision state a pull is spawned
and the filesystem is returned unchanged, and the action is identical to
the one on the same tree where the path is a valid working copy. -/
theorem c1_witness :
    ((clone_or_update_repo repoAlice baseRepos "TOKEN" gitFail fsCollision).invs
        = [pull_invocation (repo_path baseRepos repoAlice.full_name)] ∧
      (clone_or_update_repo repoAlice baseRepos "TOKEN" gitFail fsCollision).fs
        = fsCollision) ∧
    ((clone_or_update_repo repoAlice baseRepos "TOKEN" gitFail fsAtAlice).invs
        = (clone_or_update_repo repoAlice baseRepos "TOKEN" gitFail fsCollision).invs ∧
      (clone_or_update_repo repoAlice baseRepos "TOKEN" gitFail fsAtAlice).success
        = (clone_or_update_repo repoAlice baseRepos "TOKEN" gitFail fsCollision).success) :=
  ⟨(c1_amended repoAlice baseRepos "TOKEN" gitFail fsCollision).2.1 (by decide),
   (c1_amended repoAlice baseRepos "TOKEN" gitFail fsCollision).2.2 fsAtAlice rfl⟩

/-! ## C2 -/

set_option maxRecDepth 4000 in
/-- C2 is false as stated: with pages of sizes [100, 100, 37] the
enumeration does not stop requesting pages after the short (size-37)
page 3 — the trace shows a fourth request, answered by the empty page,
which only then ends the loop. -/
theorem c2_counterexample :
    (get_github_repos (pageServer repos237) 10).2
      = [.request 1, .sleepHalfSec, .request 2, .sleepHalfSec, .request 3,
         .sleepHalfSec, .request 4] := by decide

set_option maxRecDepth 4000 in
/-- C2 amended: with pages of sizes [100, 100, 37] the enumeration
returns exactly 237 descriptors; it requests exactly one page beyond the
short page, and — in general — an empty page terminates the enumeration
successfully (with the accumulated list) rather than as an error. -/
theorem c2_amended :
    ((get_github_repos (pageServer repos237) 10).1 = .done repos237 ∧
      repos237.length = 237) ∧
    (∀ (fetch : Nat → FetchResult) (fuel page : Nat) (acc : List RepoData),
      fetch page = .ok [] →
      get_github_repos_loop fetch (fuel + 1) page acc
        = (.done acc, [.request page])) := by
  constructor
  · exact ⟨by decide, by decide⟩
  · intro fetch fuel page acc h
    simp [get_github_repos_loop, h]

/-- Witness for the amended C2: a concrete empty page ends a concrete
enumeration state successfully. -/
theorem c2_witness :
    get_github_repos_loop (fun _ => .ok []) 1 5 [repoAlice]
      = (.done [repoAlice], [.request 5]) :=
  c2_amended.2 (fun _ => .ok []) 0 5 [repoAlice] rfl

/-! ## C4 -/

/-- C4 is false as stated: a pull over diverged (non-fast-forward) local
history is reported exactly like any other pull failure — the return
value `False` and a message echoing git's stderr — with no distinct
`DivergedError` kind anywhere in the report; the boolean outcome (all
that `main` aggregates) is the same as for an unrelated network failure. -/
theorem c4_counterexample :
    (clone_or_update_repo repoAlice baseRepos "TOKEN" gitDiverged fsAtAlice).success
      = false ∧
    (clone_or_update_repo repoAlice baseRepos "TOKEN" gitDiverged fsAtAlice).msgs
      = ["Failed to update alice/foo: fatal: Not possible to fast-forward, aborting."] ∧
    mentionsKind "Diverged"
      (clone_or_update_repo repoAlice baseRepos "TOKEN" gitDiverged fsAtAlice).msgs
      = false ∧
    (clone_or_update_repo repoAlice baseRepos "TOKEN" gitDiverged fsAtAlice).success
      = (clone_or_update_repo repoAlice baseRepos "TOKEN" gitUnreachable fsAtAlice).success
      := by decide

/-- C4 amended: any pull that exits non-zero — a diverged pull included —
is reported as the generic update failure: outcome `False` and the
message `"Failed to update <name>: <stderr>"`, with no divergence-specific
error kind; the only process spawned is plain `git -C <path> pull`, which
carries no force option, so the script itself never force-overwrites
local history. -/
theorem c4_amended (repo : RepoData) (base : Path) (token : String)
    (git : Invocation → ProcResult) (fs : FS) (rc : Int) (out err : String)
    (hp : fs.present (repo_path base repo.full_name) = true)
    (hg : git (pull_invocation (repo_path base repo.full_name))
      = .completed rc out err)
    (hrc : rc ≠ 0) :
    (clone_or_update_repo repo base token git fs).success = false ∧
    (clone_or_update_repo repo base token git fs).msgs
      = ["Failed to update " ++ repo.full_name ++ ": " ++ pyStrip err] ∧
    (clone_or_update_repo repo base token git fs).invs
      = [⟨["git", "-C", pathToString (repo_path base repo.full_name), "pull"],
          300⟩] := by
  unfold clone_or_update_repo
  simp only [hp, if_true]
  unfold run_git
  simp only [hg]
  rw [if_pos hrc]
  exact ⟨rfl, rfl, rfl⟩

/-- Witness for the amended C4 at the concrete diverged scenario. -/
theorem c4_witness :
    (clone_or_update_repo repoAlice baseRepos "TOKEN" gitDiverged fsAtAlice).success
      = false ∧
    (clone_or_update_repo repoAlice baseRepos "TOKEN" gitDiverged fsAtAlice).msgs
      = ["Failed to update " ++ repoAlice.full_name ++ ": "
          ++ pyStrip "fatal: Not possible to fast-forward, aborting."] ∧
    (clone_or_update_repo repoAlice baseRepos "TOKEN" gitDiverged fsAtAlice).invs
      = [⟨["git", "-C", pathToString (repo_path baseRepos repoAlice.full_name),
          "pull"], 300⟩] :=
  c4_amended repoAlice baseRepos "TOKEN" gitDiverged fsAtAlice 128 ""
    "fatal: Not possible to fast-forward, aborting." (by decide) rfl (by decide)

/-! ## C5 -/

/-- C5 is false as stated: on the very first rate-limited (HTTP 403)
response the enumeration raises immediately — one single page request,
no backoff, no retry. -/
theorem c5_counterexample :
    get_github_repos fetchRateLimited 10
      = (.fatal 403 "rate limit exceeded", [.request 1]) := by decide

theorem sleepSeparated_loop (fetch : Nat → FetchResult) :
    ∀ (fuel page : Nat) (acc : List RepoData),
    sleepSeparated (get_github_repos_loop fetch fuel page acc).2 := by
  intro fuel
  induction fuel with
  | zero =>
    intro page acc
    simp [get_github_repos_loop, sleepSeparated]
  | succ n ih =>
    intro page acc
    unfold get_github_repos_loop
    cases hf : fetch page with
    | httpError s b => simp [sleepSeparated]
    | ok prs =>
      by_cases he : prs.isEmpty
      · simp [he, sleepSeparated]
      · simp only [he, Bool.false_eq_true, if_false]
        show sleepSeparated (.request page :: .sleepHalfSec
          :: (get_github_repos_loop fetch n (page + 1) (acc ++ prs)).2)
        rw [sleepSeparated, List.chain'_cons]
        refine ⟨Or.inr rfl, ?_⟩
        rw [List.chain'_cons']
        exact ⟨fun y _ => Or.inl rfl, ih (page + 1) (acc ++ prs)⟩

/-- C5 amended: a rate-limit (non-2xx) response makes the enumeration
fail immediately as a fatal error — the offending request is the last,
no retry or backoff happens — while between any two successive page
requests the fixed 0.5 s sleep always intervenes. -/
theorem c5_amended :
    (∀ (fetch : Nat → FetchResult) (fuel page : Nat) (acc : List RepoData)
      (s : Nat) (b : String),
      fetch page = .httpError s b →
      get_github_repos_loop fetch (fuel + 1) page acc
        = (.fatal s b, [.request page])) ∧
    (∀ (fetch : Nat → FetchResult) (fuel : Nat),
      sleepSeparated (get_github_repos fetch fuel).2) := by
  constructor
  · intro fetch fuel page acc s b h
    simp [get_github_repos_loop, h]
  · intro fetch fuel
    exact sleepSeparated_loop fetch fuel 1 []

/-- Witness for the amended C5: the rate-limited fetch fails at once, and
the 237-repository trace keeps its requests sleep-separated. -/
theorem c5_witness :
    get_github_repos_loop fetchRateLimited 1 1 []
      = (.fatal 403 "rate limit exceeded", [.request 1]) ∧
    sleepSeparated (get_github_repos (pageServer repos237) 10).2 :=
  ⟨c5_amended.1 fetchRateLimited 0 1 [] 403 "rate limit exceeded" rfl,
   c5_amended.2 (pageServer repos237) 10⟩

/-! ## C9 -/

/-- C9 is false on the code: the token is embedded directly into the URL
placed in the spawned clone's argument vector, which therefore depends on
the token's value. -/
theorem c9_counterexample :
    (clone_or_update_repo repoAlice baseRepos "TOKENA" gitOK fsEmpty).invs
      = [⟨["git", "clone", "https://TOKENA@github.com/alice/foo.git",
           "repos/alice/foo"], 300⟩] ∧
    (clone_or_update_repo repoAlice baseRepos "TOKENA" gitOK fsEmpty).invs
      ≠ (clone_or_update_repo repoAlice baseRepos "TOKENB" gitOK fsEmpty).invs
      := by decide

/-- C9 amended: a clone's argument vector carries
`clone_url.replace("https://", "https://<token>@")` — the token embedded
in the URL — while only the pull branch's argument vector is independent
of the token. -/
theorem c9_amended (repo : RepoData) (base : Path) (token : String)
    (git : Invocation → ProcResult) (fs : FS) :
    (fs.present (repo_path base repo.full_name) = false →
      (clone_or_update_repo repo base token git fs).invs
        = [clone_invocation (authenticated_url repo.clone_url token)
           (repo_path base repo.full_name)]) ∧
    (fs.present (repo_path base repo.full_name) = true →
      (clone_or_update_repo repo base token git fs).invs
        = [pull_invocation (repo_path base repo.full_name)]) := by
  constructor <;> intro hp <;> rw [clone_or_update_repo_invs, hp] <;> rfl

/-- Witness for the amended C9 at concrete inputs. -/
theorem c9_witness :
    (clone_or_update_repo repoAlice baseRepos "SECRET" gitOK fsEmpty).invs
      = [clone_invocation (authenticated_url repoAlice.clone_url "SECRET")
         (repo_path baseRepos repoAlice.full_name)] ∧
    (clone_or_update_repo repoAlice baseRepos "SECRET" gitOK fsAtAlice).invs
      = [pull_invocation (repo_path baseRepos repoAlice.full_name)] :=
  ⟨(c9_amended repoAlice baseRepos "SECRET" gitOK fsEmpty).1 (by decide),
   (c9_amended repoAlice baseRepos "SECRET" gitOK fsAtAlice).2 (by decide)⟩

end BackGitUp
